import Mathlib

set_option maxRecDepth 100000

/-!
# Verification of the X-Bot reply-processing and scheduling core

Shallow embedding of the quota-aware scheduling and deduplicated
reply-processing pipeline of the X-Bot repository:

* `src/core/storage.py` — `Reply` dataclass, `StorageManager.save_reply`,
  `StorageManager.mark_reply_liked`, `StorageManager.reply_exists`,
  `StorageManager.get_existing_reply_ids`;
* `src/X-Bot/core/reply_handler.py` — `ReplyHandler.check_and_handle_replies`
  (per-reply dedup/emit loop, end-of-cycle cache trims),
  `ReplyHandler._auto_reply_to_comment`, `ReplyHandler.manual_deep_scan`;
* `src/core/twitter_api.py` — `TwitterAPIManager._check_quota`,
  `_update_quota`, `post_tweet`, `like_tweet`, `get_tweet_replies`;
* `src/core/scheduler.py` — `TaskScheduler._generate_and_post_job`,
  `_is_in_posting_hours`, `_check_posting_quota`.

External collaborators (the platform client, the LLM, the Supabase
connection) are modelled as oracles: explicit parameters supplying the
result of each outbound call.  Wall-clock timestamps are modelled as
minutes since an epoch (`Nat`); a day is 1440 minutes.
-/

namespace XBot

/-! ## Data model (`src/core/storage.py`) -/

/-- The `Reply` dataclass (storage.py, lines 49–62): a discovered platform
reply.  `author_id` is optional because `get_tweet_replies` can build a
`Reply` from a raw tweet whose `author_id` field is absent (`None`).
The `created_at` timestamp plays no role in the verified properties and is
omitted. -/
structure Reply where
  reply_id : String
  original_tweet_id : String
  author_id : Option String
  content : String
  liked : Bool
deriving DecidableEq, Repr

/-- One row of the `replies` table: the database primary key `dbId`
(column `id`) plus the persisted `Reply` fields. -/
structure StoredReply where
  dbId : Nat
  reply_id : String
  original_tweet_id : String
  author_id : Option String
  content : String
  liked : Bool
deriving DecidableEq, Repr

/-- The `replies` table, in insertion order.  The table has a unique
constraint on `reply_id`; `save_reply` below preserves it. -/
abbrev Store := List StoredReply

/-- `StorageManager.reply_exists` (storage.py, lines 568–590):
`select id where reply_id = rid limit 1` is non-empty. -/
def replyExists (store : Store) (rid : String) : Bool :=
  store.any (fun s => s.reply_id == rid)

/-- `StorageManager.get_existing_reply_ids` (storage.py, lines 592–617):
the single batch existence query — `select reply_id where reply_id in ids` —
returning the subset of `ids` already present in the table. -/
def get_existing_reply_ids (store : Store) (ids : List String) : List String :=
  ids.filter (fun i => replyExists store i)

/-- `StorageManager.save_reply` (storage.py, lines 345–417), on the
sequential (no concurrent-insert race) path.  If a row with the same
`reply_id` exists, its database id is returned; the row is updated — its
`liked` column set — only when the incoming reply has `liked = True`
(`if reply.liked:` at line 371).  Otherwise a new row is inserted with the
next database id.  Returns (returned id, new table, next fresh id). -/
def save_reply (store : Store) (nextId : Nat) (r : Reply) :
    Option Nat × Store × Nat :=
  match store.find? (fun s => s.reply_id == r.reply_id) with
  | some existing =>
      if r.liked then
        (some existing.dbId,
         store.map (fun s =>
           if s.reply_id == r.reply_id then { s with liked := true } else s),
         nextId)
      else
        (some existing.dbId, store, nextId)
  | none =>
      (some nextId,
       store ++ [⟨nextId, r.reply_id, r.original_tweet_id, r.author_id,
                 r.content, r.liked⟩],
       nextId + 1)

/-- `StorageManager.mark_reply_liked` (storage.py, lines 419–443):
`update replies set liked = true where reply_id = rid`. -/
def mark_reply_liked (store : Store) (rid : String) : Store :=
  store.map (fun s => if s.reply_id == rid then { s with liked := true } else s)

/-! ## Reply handler state (`src/X-Bot/core/reply_handler.py`) -/

/-- The engagement-configuration fields consumed by `ReplyHandler`
(`config.engagement.auto_like_replies`, `config.engagement.auto_reply_enabled`,
`config.engagement.max_replies_per_conversation`). -/
structure EngagementConfig where
  auto_like_replies : Bool
  auto_reply_enabled : Bool
  max_replies_per_conversation : Nat
deriving DecidableEq, Repr

/-- Mutable state of a `ReplyHandler` instance together with the persistent
store it writes through:
`processed` is `self._processed_replies` (a Python `set`; modelled as a
duplicate-free list, order used only where the code orders it),
`conversation_replies` is `self._conversation_replies` (a Python `dict`,
insertion-ordered association list). -/
structure HandlerState where
  processed : List String
  conversation_replies : List (String × Nat)
  store : Store
  nextDbId : Nat
deriving DecidableEq, Repr

/-- Add an identifier to the processed-replies set (`set.add`): a no-op when
already present. -/
def cacheAdd (c : List String) (x : String) : List String :=
  if c.contains x then c else c ++ [x]

/-- `self._conversation_replies.get(key, 0)`. -/
def convGet (m : List (String × Nat)) (k : String) : Nat :=
  match m.find? (fun p => p.fst == k) with
  | some p => p.snd
  | none => 0

/-- `self._conversation_replies[key] = v` on an insertion-ordered dict:
update in place if the key exists, else append. -/
def convSet (m : List (String × Nat)) (k : String) (v : Nat) :
    List (String × Nat) :=
  if m.any (fun p => p.fst == k) then
    m.map (fun p => if p.fst == k then (k, v) else p)
  else m ++ [(k, v)]

/-- Oracle for one reply's processing: outcomes of the external calls made
while handling it.  `like_success` is the result of `_auto_like_reply`
(the like path through the platform client); `generated` is the result of
`_generate_reply_content` (`None` when the LLM fails or the text exceeds
280 characters, which that function checks internally); `posted` is the
platform response to `post_tweet(reply_to=...)`. -/
structure StepOracle where
  like_success : Bool
  generated : Option String
  posted : Option String
deriving DecidableEq, Repr

/-- `ReplyHandler._auto_reply_to_comment` (reply_handler.py, lines 251–295):
check the per-conversation cap keyed by `reply.original_tweet_id`; when under
the cap, generate content and post it; on success increment the conversation
counter.  Returns (success, new conversation counters). -/
def auto_reply_to_comment (cfg : EngagementConfig)
    (conv : List (String × Nat)) (r : Reply) (orc : StepOracle) :
    Bool × List (String × Nat) :=
  let key := r.original_tweet_id
  let current := convGet conv key
  if current ≥ cfg.max_replies_per_conversation then
    (false, conv)
  else
    match orc.generated with
    | none => (false, conv)
    | some _ =>
      match orc.posted with
      | none => (false, conv)
      | some _ => (true, convSet conv key (current + 1))

/-- Observable outcome of processing one discovered reply inside
`check_and_handle_replies`. -/
structure StepResult where
  state : HandlerState
  emitted : Bool
  like_issued : Bool
  conv_incremented : Bool
deriving DecidableEq, Repr

/-- The body of the per-reply loop of `ReplyHandler.check_and_handle_replies`
(reply_handler.py, lines 154–186): skip when the identifier is in the
in-memory cache; when the batch existence query reported it as already
stored, add it to the cache and skip; otherwise mark it processed, save it,
and — when a row id came back — auto-like and auto-reply per configuration. -/
def processOne (cfg : EngagementConfig) (existing : List String)
    (orc : StepOracle) (st : HandlerState) (r : Reply) : StepResult :=
  if st.processed.contains r.reply_id then
    ⟨st, false, false, false⟩
  else if existing.contains r.reply_id then
    ⟨{ st with processed := cacheAdd st.processed r.reply_id },
     false, false, false⟩
  else
    let st1 : HandlerState :=
      { st with processed := cacheAdd st.processed r.reply_id }
    match save_reply st1.store st1.nextDbId r with
    | (some _, store1, next1) =>
      let likeStep : Bool × Store :=
        if cfg.auto_like_replies && orc.like_success then
          (true, mark_reply_liked store1 r.reply_id)
        else (false, store1)
      let replyStep : Bool × List (String × Nat) :=
        if cfg.auto_reply_enabled then
          auto_reply_to_comment cfg st1.conversation_replies r orc
        else (false, st1.conversation_replies)
      ⟨{ processed := st1.processed,
         conversation_replies := replyStep.2,
         store := likeStep.2,
         nextDbId := next1 },
       true, likeStep.1, replyStep.1⟩
    | (none, store1, next1) =>
      ⟨{ st1 with store := store1, nextDbId := next1 }, true, false, false⟩

/-- Aggregated result of processing one page of discovered replies. -/
structure PageResult where
  finalState : HandlerState
  emittedIds : List String
  likedIds : List String
  convIncrIds : List String
deriving DecidableEq, Repr

/-- Fold `processOne` over a page of replies.  The per-reply oracle is
looked up by reply identifier. -/
def processList (cfg : EngagementConfig) (existing : List String)
    (orc : String → StepOracle) (st : HandlerState) :
    List Reply → PageResult
  | [] => ⟨st, [], [], []⟩
  | r :: rs =>
    let res := processOne cfg existing (orc r.reply_id) st r
    let rest := processList cfg existing orc res.state rs
    ⟨rest.finalState,
     (if res.emitted then [r.reply_id] else []) ++ rest.emittedIds,
     (if res.like_issued then [r.reply_id] else []) ++ rest.likedIds,
     (if res.conv_incremented then [r.reply_id] else []) ++ rest.convIncrIds⟩

/-- Processing of one post's page of replies inside
`check_and_handle_replies` (reply_handler.py, lines 150–186): the batch
existence query runs once over all the page's identifiers, then the
per-reply loop consumes its result. -/
def processPage (cfg : EngagementConfig) (orc : String → StepOracle)
    (st : HandlerState) (replies : List Reply) : PageResult :=
  let existing := get_existing_reply_ids st.store (replies.map Reply.reply_id)
  processList cfg existing orc st replies

/-- End-of-cycle trim of the processed-replies cache
(reply_handler.py, lines 195–197):
`if len(s) > 1000: s = set(list(s)[-500:])`.
`self._processed_replies` is a Python `set`, whose enumeration order in
`list(s)` is unspecified (hash-dependent); the trim is therefore a function
of an arbitrary enumeration of the set's elements.  The function never
inspects the elements, so it is stated for any element type. -/
def trimProcessedCache {α : Type} (enum : List α) : List α :=
  if enum.length > 1000 then enum.drop (enum.length - 500) else enum

/-- Stable insertion of one entry into a list sorted by descending count:
the new entry goes after every entry whose count is `≥` its own.  Auxiliary
for `sortByCountDesc`. -/
def insertDesc (x : String × Nat) : List (String × Nat) → List (String × Nat)
  | [] => [x]
  | y :: ys => if x.snd ≤ y.snd then y :: insertDesc x ys else x :: y :: ys

/-- Python's `sorted(items, key=lambda x: x[1], reverse=True)`: a stable
sort by descending count (entries with equal counts keep their original
relative order, as CPython's sort guarantees). -/
def sortByCountDesc (l : List (String × Nat)) : List (String × Nat) :=
  l.foldl (fun acc x => insertDesc x acc) []

/-- End-of-cycle trim of the conversation-reply counters
(reply_handler.py, lines 199–202): when more than 100 conversations are
tracked, keep only the 50 with the highest counts and drop the rest —
a dropped conversation's count is forgotten entirely. -/
def trimConversations (conv : List (String × Nat)) : List (String × Nat) :=
  if conv.length > 100 then (sortByCountDesc conv).take 50 else conv

/-- The body of the per-reply loop of `ReplyHandler.manual_deep_scan`
(reply_handler.py, lines 477–496): skip only identifiers held in the
snapshot of the in-memory cache taken before the scan; every other
discovered reply is saved and then auto-liked / auto-replied without any
persistent-store duplicate check (the loop neither queries
`get_existing_reply_ids` nor inspects the value returned by `save_reply`). -/
def deepScanProcessOne (cfg : EngagementConfig) (originalCache : List String)
    (orc : StepOracle) (st : HandlerState) (r : Reply) : StepResult :=
  if originalCache.contains r.reply_id then
    ⟨st, false, false, false⟩
  else
    let saved := save_reply st.store st.nextDbId r
    let likeStep : Bool × Store :=
      if cfg.auto_like_replies && orc.like_success then
        (true, mark_reply_liked saved.2.1 r.reply_id)
      else (false, saved.2.1)
    let replyStep : Bool × List (String × Nat) :=
      if cfg.auto_reply_enabled then
        auto_reply_to_comment cfg st.conversation_replies r orc
      else (false, st.conversation_replies)
    ⟨{ processed := st.processed,
       conversation_replies := replyStep.2,
       store := likeStep.2,
       nextDbId := saved.2.2 },
     true, likeStep.1, replyStep.1⟩

/-! ## Quota tracker and platform gateway (`src/core/twitter_api.py`) -/

/-- Minutes in one day; `timedelta.days` of a span of `d` minutes is
`d / 1440` (floor). -/
def minutesPerDay : Nat := 1440

/-- The process-local quota counters `self._quota_usage`
(twitter_api.py, line 81). -/
structure QuotaUsage where
  posts : Nat
  reads : Nat
  likes : Nat
deriving DecidableEq, Repr

/-- The operation kinds tracked by `_check_quota`. -/
inductive QuotaOp | posts | reads | likes
deriving DecidableEq, Repr

/-- The configured daily limits consumed by `_check_quota`:
`quotas.posts_per_day`, `quotas.reads_per_day`,
`config.engagement.likes_per_day`.  A value `≤ 0` means unlimited
(the `daily_limit > 0` guard at line 252). -/
structure QuotaLimits where
  posts_per_day : Int
  reads_per_day : Int
  likes_per_day : Int
deriving DecidableEq, Repr

def QuotaLimits.limitFor (q : QuotaLimits) : QuotaOp → Int
  | .posts => q.posts_per_day
  | .reads => q.reads_per_day
  | .likes => q.likes_per_day

def QuotaUsage.usageFor (u : QuotaUsage) : QuotaOp → Nat
  | .posts => u.posts
  | .reads => u.reads
  | .likes => u.likes

def QuotaUsage.bump (u : QuotaUsage) (op : QuotaOp) (count : Nat) : QuotaUsage :=
  match op with
  | .posts => { u with posts := u.posts + count }
  | .reads => { u with reads := u.reads + count }
  | .likes => { u with likes := u.likes + count }

/-- Quota-tracking state of a `TwitterAPIManager`: the counters and
`self._last_quota_reset` (minutes since the epoch). -/
structure TwitterState where
  quota_usage : QuotaUsage
  last_quota_reset : Nat
deriving DecidableEq, Repr

/-- The reset step at the top of `_check_quota` (twitter_api.py,
lines 233–237): `if (now - self._last_quota_reset).days >= 1`, zero every
counter and move the reset timestamp to `now`.  With minute-valued clocks,
`timedelta.days >= 1` is `(now - last) / 1440 ≥ 1`; a `now` earlier than
the last reset yields a negative `timedelta` whose `days` is negative, and
truncated `Nat` subtraction likewise never fires the reset there. -/
def resetIfNeeded (now : Nat) (st : TwitterState) : TwitterState :=
  if (now - st.last_quota_reset) / minutesPerDay ≥ 1 then
    { quota_usage := ⟨0, 0, 0⟩, last_quota_reset := now }
  else st

/-- `TwitterAPIManager._check_quota` (twitter_api.py, lines 218–260):
reset if a day has elapsed, then refuse when the limit is positive and
`current_usage + count` would exceed it.  The reset and the check happen in
one step on the same state. -/
def check_quota (limits : QuotaLimits) (op : QuotaOp) (count : Nat)
    (now : Nat) (st : TwitterState) : Bool × TwitterState :=
  let st1 := resetIfNeeded now st
  let usage := st1.quota_usage.usageFor op
  let limit := limits.limitFor op
  (!(limit > 0 && (usage + count : Int) > limit), st1)

/-- `TwitterAPIManager._update_quota` (twitter_api.py, lines 262–264). -/
def update_quota (op : QuotaOp) (count : Nat) (st : TwitterState) :
    TwitterState :=
  { st with quota_usage := st.quota_usage.bump op count }

/-- `TwitterAPIManager.post_tweet` (twitter_api.py, lines 272–327), without
media handling: check the posts quota first and return `None` with no
platform call when it refuses; otherwise call `client.create_tweet`
(the oracle `gateway` holds the id it returns, `none` when the response
carries no id) and consume quota only when an id came back.  The third
component records whether the platform call was made. -/
def post_tweet (limits : QuotaLimits) (now : Nat) (st : TwitterState)
    (gateway : Option String) : Option String × TwitterState × Bool :=
  let checked := check_quota limits .posts 1 now st
  if !checked.1 then
    (none, checked.2, false)
  else
    match gateway with
    | some tid => (some tid, update_quota .posts 1 checked.2, true)
    | none => (none, checked.2, true)

/-- Result of `client.get_tweet(tweet_id, tweet_fields=[author_id])` inside
`like_tweet`: the call either raises (`err`), or returns a response whose
`data` field may be absent (`ok none`) or present with an optional
`author_id` (`ok (some a?)`). -/
inductive AuthorLookup
  | err
  | ok (dataField : Option (Option String))
deriving DecidableEq, Repr

/-- Oracle for the external calls made by `like_tweet`: the author lookup,
`client.get_me()` (`none` when no user id is returned), and the `liked`
flag of the `client.like` response. -/
structure LikeOracle where
  lookup : AuthorLookup
  me_user_id : Option String
  like_response_liked : Bool
deriving DecidableEq, Repr

/-- The self-author test `if self.bot_user_id and author == self.bot_user_id`
(twitter_api.py, line 383 and reply_handler.py line 234): only fires when
the bot's own id is known and the author is present and equal to it. -/
def isSelfAuthor (bot_user_id : Option String) (author : Option String) :
    Bool :=
  match bot_user_id, author with
  | some b, some a => a == b
  | _, _ => false

/-- `TwitterAPIManager.like_tweet` (twitter_api.py, lines 358–424):
check the likes quota; look up the tweet's author — an exception skips the
like (`return False`, lines 387–390), and a response naming the bot itself
skips it (lines 380–385), but a successful response with no `data` falls
through to the like; resolve the authenticated user; issue `client.like`
and consume quota only when the response reports `liked`.  Returns
(success, state, whether `client.like` was called). -/
def like_tweet (limits : QuotaLimits) (bot_user_id : Option String)
    (now : Nat) (st : TwitterState) (orc : LikeOracle) :
    Bool × TwitterState × Bool :=
  let checked := check_quota limits .likes 1 now st
  if !checked.1 then
    (false, checked.2, false)
  else
    match orc.lookup with
    | .err => (false, checked.2, false)
    | .ok dataField =>
      let selfDetected :=
        match dataField with
        | some author => isSelfAuthor bot_user_id author
        | none => false
      if selfDetected then (false, checked.2, false)
      else
        match orc.me_user_id with
        | none => (false, checked.2, false)
        | some _ =>
          if orc.like_response_liked then
            (true, update_quota .likes 1 checked.2, true)
          else
            (false, checked.2, true)

/-- A raw tweet as returned by `client.search_recent_tweets` inside
`get_tweet_replies`: id, conversation id, optional author, text. -/
structure RawTweet where
  id : String
  conversation_id : String
  author_id : Option String
  text : String
deriving DecidableEq, Repr

/-- `TwitterAPIManager.get_tweet_replies` (twitter_api.py, lines 426–501):
check the reads quota (empty result, no call, when it refuses); then filter
the page — drop tweets whose `conversation_id` differs from the queried
tweet and tweets authored by the bot itself — and build `Reply` records.
Quota is consumed for the whole raw page. -/
def get_tweet_replies (limits : QuotaLimits) (bot_user_id : Option String)
    (now : Nat) (st : TwitterState) (tweet_id : String)
    (max_results : Nat) (raw : List RawTweet) :
    List Reply × TwitterState :=
  let checked := check_quota limits .reads max_results now st
  if !checked.1 then
    ([], checked.2)
  else
    let replies := raw.filterMap (fun t =>
      if t.conversation_id != tweet_id then none
      else if isSelfAuthor bot_user_id t.author_id then none
      else some ⟨t.id, tweet_id, t.author_id, t.text, false⟩)
    (replies, update_quota .reads raw.length checked.2)

/-! ## Posting job (`src/core/scheduler.py`) -/

/-- `TaskScheduler._is_in_posting_hours` (scheduler.py, lines 475–494),
with times of day as minutes in `[0, 1440)`:
a normal window `start ≤ end` admits `start ≤ now ≤ end` (both boundaries
inclusive); a window wrapping midnight (`start > end`) admits
`now ≥ start or now ≤ end`. -/
def is_in_posting_hours (startT endT now : Nat) : Bool :=
  if startT ≤ endT then
    startT ≤ now && now ≤ endT
  else
    now ≥ startT || now ≤ endT

/-- The posting-window membership as the specification words it: a firing
time is inside `[start, end]` when `start ≤ t ≤ end` for a normal window —
both boundaries inclusive — and, for a wrap-around window (`start > end`,
e.g. 22:00–06:00), when the time is after the start or before the end.
Stated from the spec's words, for comparison with `is_in_posting_hours`. -/
def windowSpec (startT endT t : Nat) : Bool :=
  if startT ≤ endT then decide (startT ≤ t ∧ t ≤ endT)
  else decide (startT ≤ t ∨ t ≤ endT)

/-- The posts entry of `get_quota_status().daily_limits`
(twitter_api.py, line 644): the configured limit when positive, the string
`unlimited` — modelled as `none` — otherwise. -/
def postsLimitStatus (limits : QuotaLimits) : Option Int :=
  if limits.posts_per_day > 0 then some limits.posts_per_day else none

/-- `TaskScheduler._check_posting_quota` (scheduler.py, lines 496–512):
refuse only when the reported limit is an integer and
`posts_used >= posts_limit`. -/
def check_posting_quota (postsUsed : Nat) (postsLimit : Option Int) : Bool :=
  match postsLimit with
  | some l => !((postsUsed : Int) ≥ l)
  | none => true

/-- Outcome of one firing of the posting job. -/
inductive JobOutcome
  | skippedWindow
  | skippedQuota
  | failedContent
  | failedPost
  | posted (id : String)
deriving DecidableEq, Repr

/-- One firing of the posting job: its wall-clock minute and the oracles
for the two external calls it may make (`generate_complete_post` and
`create_tweet`). -/
structure Firing where
  now : Nat
  content : Option String
  gateway : Option String
deriving DecidableEq, Repr

/-- `TaskScheduler._generate_and_post_job` (scheduler.py, lines 339–473):
skip when the local time of day is outside the posting window; skip when
`_check_posting_quota` on the current `get_quota_status()` refuses — both
skips happen before content generation and before any platform call; then
generate content (failure aborts) and submit through `post_tweet`.
The Boolean records whether the platform gateway (`create_tweet`) was
called. -/
def generate_and_post_job (startT endT : Nat) (limits : QuotaLimits)
    (st : TwitterState) (f : Firing) :
    JobOutcome × TwitterState × Bool :=
  if !is_in_posting_hours startT endT (f.now % minutesPerDay) then
    (.skippedWindow, st, false)
  else if !check_posting_quota st.quota_usage.posts (postsLimitStatus limits) then
    (.skippedQuota, st, false)
  else
    match f.content with
    | none => (.failedContent, st, false)
    | some _ =>
      let res := post_tweet limits f.now st f.gateway
      match res.1 with
      | some id => (.posted id, res.2.1, res.2.2)
      | none => (.failedPost, res.2.1, res.2.2)

/-- Run a sequence of firings of the posting job, collecting each
firing's outcome and whether it called the platform gateway. -/
def runFirings (startT endT : Nat) (limits : QuotaLimits)
    (st : TwitterState) : List Firing → TwitterState × List (JobOutcome × Bool)
  | [] => (st, [])
  | f :: fs =>
    let step := generate_and_post_job startT endT limits st f
    let rest := runFirings startT endT limits step.2.1 fs
    (rest.1, (step.1, step.2.2) :: rest.2)

/-- Whether a firing outcome is a successful post. -/
def isPosted : JobOutcome → Bool
  | .posted _ => true
  | _ => false

/-- Number of successful posts in a trace of firing outcomes. -/
def countPosted (trace : List (JobOutcome × Bool)) : Nat :=
  trace.countP (fun o => match o.1 with | .posted _ => true | _ => false)

/-- The calendar day of a minute-valued timestamp: wall-clock midnight
boundaries fall at multiples of 1440 minutes. -/
def calendarDay (t : Nat) : Nat := t / minutesPerDay

/-! ## Concrete scenarios used by the claim witnesses and counterexamples -/

/-- Engagement configuration with auto-like and auto-reply on and a
per-conversation cap of 1. -/
def capOneCfg : EngagementConfig := ⟨true, true, 1⟩

/-- Per-reply oracle in which every external call succeeds. -/
def allOkOrc : StepOracle := ⟨true, some "generated", some "posted-id"⟩

/-- Per-reply oracle function in which every external call succeeds. -/
def allOkOrcFun : String → StepOracle := fun _ => allOkOrc

/-- Scenario C1: a fresh handler, empty cache and empty store. -/
def c1st0 : HandlerState := ⟨[], [], [], 0⟩

/-- Scenario C1: the reply processed twice. -/
def c1r : Reply := ⟨"r1", "t1", some "A", "hi", false⟩

/-- Scenario C2: a qualifying reply into conversation `i` (the conversation
key is the identifier of the root post the reply answers). -/
def c2OtherReply (i : Nat) : Reply := ⟨"rr", toString i, some "A", "hi", false⟩

/-- Scenario C2: a qualifying reply into conversation `k`. -/
def c2KReply : Reply := ⟨"rk", "k", some "A", "hi", false⟩

/-- Scenario C2: conversation counters after one auto-reply has been issued
into each of 100 distinct conversations, every one at the cap of 1. -/
def c2ConvFilled : List (String × Nat) :=
  (List.range 100).foldl
    (fun c i => (auto_reply_to_comment capOneCfg c (c2OtherReply i) allOkOrc).2)
    []

/-- Scenario C2: counters after a 101st conversation `k` also receives its
one capped auto-reply. -/
def c2ConvWithK : List (String × Nat) :=
  (auto_reply_to_comment capOneCfg c2ConvFilled c2KReply allOkOrc).2

/-- Scenario C3: a daily post limit of 2. -/
def c3limits : QuotaLimits := ⟨2, 100, 100⟩

/-- Scenario C3: fresh counters, last reset at minute 100. -/
def c3st0 : TwitterState := ⟨⟨0, 0, 0⟩, 100⟩

/-- Scenario C3: four firings inside one rolling day, all with content and
gateway available. -/
def c3fs : List Firing :=
  [⟨200, some "c", some "i1"⟩, ⟨300, some "c", some "i2"⟩,
   ⟨400, some "c", some "i3"⟩, ⟨500, some "c", some "i4"⟩]

/-- Scenario C7: store already containing rows for replies r2 and r3. -/
def c7store : Store :=
  [⟨1, "r2", "t1", some "A", "x", false⟩, ⟨2, "r3", "t1", some "A", "y", false⟩]

/-- Scenario C7: in-memory cache holding r1 and r2, store holding r2 and
r3 (the spec's worked example). -/
def c7st : HandlerState := ⟨["r1", "r2"], [], c7store, 3⟩

/-- Scenario C7: a discovered reply with the given identifier under root
post t1. -/
def mkR (i : String) : Reply := ⟨i, "t1", some "A", "c", false⟩

/-- Scenario C7: the discovered page r1, r2, r3, r4. -/
def c7page : List Reply := [mkR "r1", mkR "r2", mkR "r3", mkR "r4"]

/-- Scenario C8: the insertion order of 1001 cache entries. -/
def c8InsertionOrder : List Nat := List.range 1001

/-- Scenario C9: store already containing reply r9, liked. -/
def c9Store : Store := [⟨1, "r9", "t9", some "A", "hello", true⟩]

/-- Scenario C9: a handler fresh after restart — empty in-memory cache —
over the store that already holds r9. -/
def c9State : HandlerState := ⟨[], [], c9Store, 2⟩

/-- Scenario C9: the deep scan rediscovers the already-persisted reply
r9. -/
def c9Reply : Reply := ⟨"r9", "t9", some "A", "hello", false⟩

/-! ## Helper lemmas -/

theorem replyExists_iff (store : Store) (rid : String) :
    replyExists store rid = true ↔ ∃ s ∈ store, s.reply_id = rid := by
  unfold replyExists
  rw [List.any_eq_true]
  constructor
  · rintro ⟨s, hs, hb⟩
    exact ⟨s, hs, by simpa using hb⟩
  · rintro ⟨s, hs, hb⟩
    exact ⟨s, hs, by simpa using hb⟩

theorem replyExists_mark (store : Store) (a b : String) :
    replyExists (mark_reply_liked store a) b = replyExists store b := by
  unfold replyExists mark_reply_liked
  rw [List.any_map]
  congr 1
  funext x
  by_cases h : (x.reply_id == a) = true <;> simp [h, Function.comp]

theorem save_reply_fresh (store : Store) (nextId : Nat) (r : Reply)
    (hex : replyExists store r.reply_id = false) :
    save_reply store nextId r
      = (some nextId,
         store ++ [⟨nextId, r.reply_id, r.original_tweet_id, r.author_id,
                   r.content, r.liked⟩],
         nextId + 1) := by
  have hf : store.find? (fun s => s.reply_id == r.reply_id) = none := by
    rw [List.find?_eq_none]
    intro x hx
    intro hb
    have : replyExists store r.reply_id = true :=
      (replyExists_iff store r.reply_id).mpr ⟨x, hx, by simpa using hb⟩
    rw [this] at hex
    exact absurd hex (by simp)
  unfold save_reply
  rw [hf]

theorem cacheAdd_contains (c : List String) (x y : String) :
    (cacheAdd c x).contains y = (c.contains y || y == x) := by
  unfold cacheAdd
  by_cases hcx : c.contains x = true
  · simp only [hcx, if_true]
    by_cases hyx : y = x
    · subst hyx
      have hm : y ∈ c := by simpa using hcx
      simp [hm]
    · simp [beq_eq_false_iff_ne.mpr hyx]
  · simp only [hcx, Bool.false_eq_true, if_false]
    by_cases hyx : y = x
    · subst hyx; simp
    · simp [beq_eq_false_iff_ne.mpr hyx, hyx]

theorem processOne_emitted_eq (cfg : EngagementConfig) (existing : List String)
    (orc : StepOracle) (st : HandlerState) (r : Reply) :
    (processOne cfg existing orc st r).emitted
      = (!(st.processed.contains r.reply_id)
         && !(existing.contains r.reply_id)) := by
  unfold processOne
  by_cases h1 : r.reply_id ∈ st.processed
  · simp [h1]
  · by_cases h2 : r.reply_id ∈ existing
    · simp [h1, h2]
    · rcases hs : save_reply st.store st.nextDbId r with ⟨id?, store1, next1⟩
      cases id? <;> simp [hs, h1, h2]

theorem processOne_processed_contains (cfg : EngagementConfig)
    (existing : List String) (orc : StepOracle) (st : HandlerState)
    (r : Reply) (y : String) :
    (processOne cfg existing orc st r).state.processed.contains y
      = (st.processed.contains y || y == r.reply_id) := by
  unfold processOne
  by_cases h1 : r.reply_id ∈ st.processed
  · by_cases hyx : y = r.reply_id
    · subst hyx
      simp [h1]
    · simp [h1, beq_eq_false_iff_ne.mpr hyx]
  · have hca := cacheAdd_contains st.processed r.reply_id y
    by_cases h2 : r.reply_id ∈ existing
    · simp [h1, h2]
      simpa using hca
    · rcases hs : save_reply st.store st.nextDbId r with ⟨id?, store1, next1⟩
      cases id? <;> simp [hs, h1, h2] <;> simpa using hca

theorem processList_processed_mono (cfg : EngagementConfig)
    (existing : List String) (orc : String → StepOracle) :
    ∀ (rs : List Reply) (st : HandlerState) (y : String),
      st.processed.contains y = true →
      (processList cfg existing orc st rs).finalState.processed.contains y
        = true
  | [], _, _, h => h
  | r :: rs, st, y, h => by
    unfold processList
    refine processList_processed_mono cfg existing orc rs _ y ?_
    rw [processOne_processed_contains, h, Bool.true_or]

theorem processList_processed_all (cfg : EngagementConfig)
    (existing : List String) (orc : String → StepOracle) :
    ∀ (rs : List Reply) (st : HandlerState), ∀ r ∈ rs,
      (processList cfg existing orc st rs).finalState.processed.contains
        r.reply_id = true
  | r0 :: rs, st, r, hr => by
    unfold processList
    rcases List.mem_cons.mp hr with h | h
    · subst h
      refine processList_processed_mono cfg existing orc rs _ r.reply_id ?_
      rw [processOne_processed_contains]
      simp
    · exact processList_processed_all cfg existing orc rs _ r h

theorem processList_emitted_eq (cfg : EngagementConfig)
    (existing : List String) (orc : String → StepOracle) :
    ∀ (rs : List Reply) (st : HandlerState),
      (rs.map Reply.reply_id).Nodup →
      (processList cfg existing orc st rs).emittedIds
        = (rs.filter (fun r =>
            !(st.processed.contains r.reply_id)
            && !(existing.contains r.reply_id))).map Reply.reply_id
  | [], st, _ => rfl
  | r :: rs, st, hnd => by
    have hnd2 : (rs.map Reply.reply_id).Nodup :=
      (List.nodup_cons.mp (by simpa using hnd)).2
    have hnotmem : r.reply_id ∉ rs.map Reply.reply_id :=
      (List.nodup_cons.mp (by simpa using hnd)).1
    have hstep := processList_emitted_eq cfg existing orc rs
      (processOne cfg existing (orc r.reply_id) st r).state hnd2
    have hfc : (rs.filter (fun x =>
          !((processOne cfg existing (orc r.reply_id) st r).state.processed.contains x.reply_id)
          && !(existing.contains x.reply_id)))
        = (rs.filter (fun x =>
          !(st.processed.contains x.reply_id)
          && !(existing.contains x.reply_id))) := by
      refine List.filter_congr ?_
      intro x hx
      have hne : x.reply_id ≠ r.reply_id := by
        intro hEq
        exact hnotmem (hEq ▸ List.mem_map_of_mem Reply.reply_id hx)
      rw [processOne_processed_contains, beq_eq_false_iff_ne.mpr hne,
        Bool.or_false]
    unfold processList
    simp only [processOne_emitted_eq, hstep, hfc, List.filter_cons]
    by_cases hcond : r.reply_id ∉ st.processed ∧ r.reply_id ∉ existing
    · simp [hcond]
    · simp [hcond]

theorem processPage_single_known (cfg : EngagementConfig)
    (orc : String → StepOracle) (st : HandlerState) (r : Reply)
    (h : st.processed.contains r.reply_id = true
         ∨ replyExists st.store r.reply_id = true) :
    (processPage cfg orc st [r]).emittedIds = []
    ∧ (processPage cfg orc st [r]).likedIds = []
    ∧ (processPage cfg orc st [r]).convIncrIds = []
    ∧ (processPage cfg orc st [r]).finalState.store = st.store
    ∧ (processPage cfg orc st [r]).finalState.conversation_replies
        = st.conversation_replies := by
  unfold processPage processList processOne get_existing_reply_ids
  rcases h with h | h
  · have hm : r.reply_id ∈ st.processed := by simpa using h
    simp [hm, processList]
  · by_cases hc : r.reply_id ∈ st.processed
    · simp [hc, processList]
    · simp [hc, h, processList]

/-! ## Claim theorems -/

/-- Claim C1: idempotent reply processing.  For every reply identifier,
re-processing no-ops when the identifier is in the in-memory cache or
already exists in the store (nothing is emitted, no like is issued, no
conversation counter is incremented, and neither the store nor the
conversation counters change); in particular, when the identifier was saved
in the persistent store by a first processing, a second processing after a
process restart — simulated by clearing the in-memory processed cache —
issues no second like and increments no conversation counter a second
time. -/
theorem c1_idempotent_reply_processing (cfg : EngagementConfig)
    (orc1 orc2 : String → StepOracle) (st0 : HandlerState) (r : Reply)
    (hsaved : replyExists (processPage cfg orc1 st0 [r]).finalState.store
        r.reply_id = true) :
    ((processPage cfg orc2
        { (processPage cfg orc1 st0 [r]).finalState with processed := [] }
        [r]).likedIds = []
     ∧ (processPage cfg orc2
        { (processPage cfg orc1 st0 [r]).finalState with processed := [] }
        [r]).convIncrIds = [])
    ∧ ∀ st : HandlerState,
        (st.processed.contains r.reply_id = true
          ∨ replyExists st.store r.reply_id = true) →
        (processPage cfg orc2 st [r]).emittedIds = []
        ∧ (processPage cfg orc2 st [r]).likedIds = []
        ∧ (processPage cfg orc2 st [r]).convIncrIds = []
        ∧ (processPage cfg orc2 st [r]).finalState.store = st.store
        ∧ (processPage cfg orc2 st [r]).finalState.conversation_replies
            = st.conversation_replies := by
  constructor
  · have h := processPage_single_known cfg orc2
      { (processPage cfg orc1 st0 [r]).finalState with processed := [] } r
      (Or.inr hsaved)
    exact ⟨h.2.1, h.2.2.1⟩
  · intro st h
    exact processPage_single_known cfg orc2 st r h

/-- Witness for C1: a fresh handler processes reply r1 once (the reply is
emitted, saved, and liked); after the restart — cache cleared, store kept —
re-processing r1 issues no second like and no second conversation-counter
increment. -/
theorem c1_witness :
    (processPage capOneCfg allOkOrcFun
      { (processPage capOneCfg allOkOrcFun c1st0 [c1r]).finalState with
          processed := [] } [c1r]).likedIds = []
    ∧ (processPage capOneCfg allOkOrcFun
      { (processPage capOneCfg allOkOrcFun c1st0 [c1r]).finalState with
          processed := [] } [c1r]).convIncrIds = [] :=
  (c1_idempotent_reply_processing capOneCfg allOkOrcFun allOkOrcFun c1st0 c1r
    (by decide)).1

/-- Claim C7: two-tier dedup emission.  Over one page of discovered replies
with pairwise-distinct identifiers, a reply is emitted downstream if and
only if its identifier is neither in the in-memory processed cache nor
among the identifiers the persistent store's batch existence query reports
as already stored; and every identifier of the page — in particular each
one found in the store — ends up in the cache. -/
theorem c7_two_tier_dedup (cfg : EngagementConfig) (orc : String → StepOracle)
    (st : HandlerState) (replies : List Reply)
    (hnd : (replies.map Reply.reply_id).Nodup) :
    (processPage cfg orc st replies).emittedIds
      = (replies.filter (fun r =>
          !(st.processed.contains r.reply_id)
          && !((get_existing_reply_ids st.store
                (replies.map Reply.reply_id)).contains r.reply_id))).map
          Reply.reply_id
    ∧ ∀ r ∈ replies,
        (processPage cfg orc st replies).finalState.processed.contains
          r.reply_id = true := by
  constructor
  · exact processList_emitted_eq cfg _ orc replies st hnd
  · intro r hr
    exact processList_processed_all cfg _ orc replies st r hr

/-- Witness for C7: the spec's worked example — cache holding r1 and r2,
store holding r2 and r3, page r1 r2 r3 r4 — emits exactly r4, and all four
identifiers end in the cache. -/
theorem c7_witness :
    (processPage capOneCfg allOkOrcFun c7st c7page).emittedIds = ["r4"]
    ∧ ∀ r ∈ c7page,
        (processPage capOneCfg allOkOrcFun c7st
          c7page).finalState.processed.contains r.reply_id = true := by
  have h := c7_two_tier_dedup capOneCfg allOkOrcFun c7st c7page (by decide)
  exact ⟨h.1.trans (by decide), h.2⟩

/-- Claim C2 (code bug): the conversation cap is not a lifetime invariant.
With a per-conversation cap of 1, conversation k receives one auto-reply
(its counter reaching the cap); the end-of-cycle eviction (101 tracked
conversations, only the top 50 by count retained) drops k and forgets its
count, after which a further qualifying reply into k is auto-replied
again — a second auto-reply into a conversation whose cap is 1. -/
theorem c2_conversation_cap_violated_by_eviction :
    capOneCfg.max_replies_per_conversation = 1
    ∧ (auto_reply_to_comment capOneCfg c2ConvFilled c2KReply allOkOrc).1
        = true
    ∧ convGet c2ConvWithK "k" = 1
    ∧ c2ConvWithK.length = 101
    ∧ (trimConversations c2ConvWithK).length = 50
    ∧ ((trimConversations c2ConvWithK).any (fun p => p.fst == "k")) = false
    ∧ convGet (trimConversations c2ConvWithK) "k" = 0
    ∧ (auto_reply_to_comment capOneCfg (trimConversations c2ConvWithK)
        c2KReply allOkOrc).1 = true := by
  decide

/-- Claim C9 (code bug): the manual deep scan re-actions a reply that is
already persisted in the store.  Reply r9 exists in the store (it was even
already liked); the deep scan, run with an empty in-memory cache (fresh
process), skips neither on the cache snapshot nor on any store check, and
issues a like and an auto-reply for it again. -/
theorem c9_deep_scan_reactions_persisted_reply :
    replyExists c9State.store "r9" = true
    ∧ (deepScanProcessOne capOneCfg [] allOkOrc c9State c9Reply).emitted
        = true
    ∧ (deepScanProcessOne capOneCfg [] allOkOrc c9State c9Reply).like_issued
        = true
    ∧ (deepScanProcessOne capOneCfg [] allOkOrc c9State
        c9Reply).conv_incremented = true := by
  decide

/-- Claim C8 counterexample: the trim of the processed-replies cache does
not drop the oldest half in insertion order.  The cache is a Python `set`,
so `list(s)` may enumerate its 1001 elements in any order; for the reversed
enumeration — a valid enumeration of exactly the same elements, here the
1001 identifiers inserted in the order 0,1,…,1000 — the code's trim keeps
elements 0–499 and drops the most recently inserted element 1000, whereas
a FIFO trim retaining the most recently inserted half would keep it. -/
theorem c8_fifo_eviction_counterexample :
    c8InsertionOrder.reverse.Nodup
    ∧ (∀ x, x ∈ c8InsertionOrder.reverse ↔ x ∈ c8InsertionOrder)
    ∧ (1000 : Nat) ∈ c8InsertionOrder.drop (c8InsertionOrder.length - 500)
    ∧ (1000 : Nat) ∉ trimProcessedCache c8InsertionOrder.reverse
    ∧ trimProcessedCache c8InsertionOrder.reverse
        ≠ c8InsertionOrder.drop (c8InsertionOrder.length - 500) := by
  refine ⟨?_, ?_, ?_, ?_, ?_⟩
  · exact (List.nodup_reverse).mpr (List.nodup_range 1001)
  · intro x
    exact List.mem_reverse
  · decide
  · decide
  · decide

/-- Claim C8 (amended): when the cache exceeds 1000 entries at the end of a
polling cycle it is cut down to exactly 500 entries — half the cap — but
which half is kept is determined by the unspecified enumeration order of
the Python set, not by insertion order; the retained entries are all drawn
from the cache, and the cache size never exceeds the 1000-entry cap across
cycle boundaries. -/
theorem c8_eviction_amended {α : Type} (enum : List α) :
    (trimProcessedCache enum).length ≤ 1000
    ∧ (enum.length > 1000 →
        (trimProcessedCache enum).length = 500
        ∧ ∀ x ∈ trimProcessedCache enum, x ∈ enum) := by
  unfold trimProcessedCache
  by_cases h : enum.length > 1000
  · simp only [h, if_true]
    refine ⟨?_, fun _ => ⟨?_, ?_⟩⟩
    · rw [List.length_drop]; omega
    · rw [List.length_drop]; omega
    · intro x hx
      exact List.drop_subset _ _ hx
  · simp only [h, if_false]
    exact ⟨by omega, fun hc => hc.elim⟩

/-- Witness for C8 (amended): a cache of 1001 entries is trimmed to exactly
500 entries, all of them drawn from the original cache. -/
theorem c8_witness :
    (trimProcessedCache (List.range 1001)).length = 500
    ∧ ∀ x ∈ trimProcessedCache (List.range 1001), x ∈ List.range 1001 :=
  (c8_eviction_amended (List.range 1001)).2 (by decide)

/-- Claim C4 counterexample: the quota counters are not zeroed when the
wall-clock day advances.  The last reset happened at 23:00 of day 0
(minute 1380) with 3 posts used; a check at 01:00 of day 1 (minute 1500) —
after midnight, on the next calendar day — leaves the counters untouched
(only 2 hours have elapsed, so `timedelta.days` is 0) and is evaluated
against the previous day's usage: with a daily limit of 3 it refuses. -/
theorem c4_quota_reset_counterexample :
    calendarDay 1380 < calendarDay 1500
    ∧ (check_quota ⟨3, 100, 100⟩ .posts 1 1500
        ⟨⟨3, 0, 0⟩, 1380⟩).2.quota_usage ≠ ⟨0, 0, 0⟩
    ∧ (check_quota ⟨3, 100, 100⟩ .posts 1 1500
        ⟨⟨3, 0, 0⟩, 1380⟩).2.last_quota_reset = 1380
    ∧ (check_quota ⟨3, 100, 100⟩ .posts 1 1500
        ⟨⟨3, 0, 0⟩, 1380⟩).1 = false := by
  decide

/-- Claim C4 (amended): the reset boundary is a rolling 24-hour span, not
the calendar midnight — before every quota check, if at least one full day
(1440 minutes, Python's `timedelta.days >= 1`) has elapsed since the last
reset, all usage counters are zeroed and the reset timestamp set to the
check's time, atomically with that check, which is then evaluated against
the zeroed usage; a check less than 24 hours after the last reset — even
across midnight — leaves the counters and reset timestamp unchanged. -/
theorem c4_quota_reset_rolling_day (limits : QuotaLimits) (op : QuotaOp)
    (count now : Nat) (st : TwitterState) :
    (now - st.last_quota_reset ≥ minutesPerDay →
      check_quota limits op count now st
        = (!(limits.limitFor op > 0
             && ((count : Int) > limits.limitFor op)),
           ⟨⟨0, 0, 0⟩, now⟩))
    ∧ (now - st.last_quota_reset < minutesPerDay →
      check_quota limits op count now st
        = (!(limits.limitFor op > 0
             && ((st.quota_usage.usageFor op + count : Int)
                  > limits.limitFor op)),
           st)) := by
  unfold check_quota resetIfNeeded minutesPerDay
  constructor
  · intro h
    have hd : (now - st.last_quota_reset) / 1440 ≥ 1 := by omega
    simp only [hd, if_true]
    cases op <;> simp [QuotaUsage.usageFor]
  · intro h
    have hd : ¬((now - st.last_quota_reset) / 1440 ≥ 1) := by omega
    simp only [hd, if_false]

/-- Witness for C4 (amended): a check 2 days after the last reset zeroes
the counters (4 stale posts forgotten), moves the reset timestamp, and
passes the limit-3 check against the zeroed usage. -/
theorem c4_witness :
    check_quota ⟨3, 9, 9⟩ .posts 1 2880 ⟨⟨4, 0, 0⟩, 0⟩
      = (true, ⟨⟨0, 0, 0⟩, 2880⟩) :=
  ((c4_quota_reset_rolling_day ⟨3, 9, 9⟩ .posts 1 2880 ⟨⟨4, 0, 0⟩, 0⟩).1
    (by decide)).trans (by decide)

/-- Claim C10: frame property of save_reply.  When a row with the incoming
reply's identifier already exists and the incoming reply has
`liked = False`, `save_reply` returns the existing row's database id and
leaves the stored table entirely unchanged — in particular a stored
`liked = True` flag is never reset. -/
theorem c10_save_reply_frame (store : Store) (nextId : Nat) (r : Reply)
    (e : StoredReply)
    (hfind : store.find? (fun s => s.reply_id == r.reply_id) = some e)
    (hliked : r.liked = false) :
    save_reply store nextId r = (some e.dbId, store, nextId) := by
  unfold save_reply
  rw [hfind, hliked]
  simp

/-- Witness for C10: saving an unliked copy of r1 over a store whose r1
row is liked returns the stored id 7 and leaves the row — liked flag
included — untouched. -/
theorem c10_witness :
    save_reply [⟨7, "r1", "t1", some "a1", "hello", true⟩] 5
      ⟨"r1", "t1", some "a1", "hello", false⟩
      = (some 7, [⟨7, "r1", "t1", some "a1", "hello", true⟩], 5) :=
  c10_save_reply_frame [⟨7, "r1", "t1", some "a1", "hello", true⟩] 5
    ⟨"r1", "t1", some "a1", "hello", false⟩
    ⟨7, "r1", "t1", some "a1", "hello", true⟩ (by decide) rfl

theorem resetIfNeeded_posts_le (now : Nat) (st : TwitterState) :
    (resetIfNeeded now st).quota_usage.posts ≤ st.quota_usage.posts := by
  unfold resetIfNeeded
  by_cases h : (now - st.last_quota_reset) / minutesPerDay ≥ 1
  · simp [h]
  · simp [h]

theorem post_tweet_gateway_called (limits : QuotaLimits) (now : Nat)
    (st : TwitterState) (gw : Option String)
    (hq : check_posting_quota st.quota_usage.posts (postsLimitStatus limits)
        = true) :
    (post_tweet limits now st gw).2.2 = true := by
  have h1 : (check_quota limits .posts 1 now st).1 = true := by
    unfold check_quota
    simp only [QuotaUsage.usageFor, QuotaLimits.limitFor]
    unfold check_posting_quota postsLimitStatus at hq
    have hle := resetIfNeeded_posts_le now st
    by_cases hpos : limits.posts_per_day > 0
    · rw [if_pos hpos] at hq
      have hlt : (st.quota_usage.posts : Int) < limits.posts_per_day := by
        simpa using hq
      have hle2 : ((resetIfNeeded now st).quota_usage.posts : Int)
          ≤ (st.quota_usage.posts : Int) := by exact_mod_cast hle
      simp
      omega
    · rw [if_neg hpos] at hq
      simp
      omega
  simp only [post_tweet, h1]
  cases gw <;> simp

theorem job_skippedWindow_iff (startT endT : Nat) (limits : QuotaLimits)
    (st : TwitterState) (f : Firing) :
    ((generate_and_post_job startT endT limits st f).1
        = JobOutcome.skippedWindow)
      ↔ is_in_posting_hours startT endT (f.now % minutesPerDay) = false := by
  unfold generate_and_post_job
  cases hin : is_in_posting_hours startT endT (f.now % minutesPerDay) with
  | false => simp [hin]
  | true =>
    simp only [hin, Bool.not_true, Bool.false_eq_true, if_false]
    by_cases hq : check_posting_quota st.quota_usage.posts
        (postsLimitStatus limits) = true
    · simp only [hq, Bool.not_true, Bool.false_eq_true, if_false]
      rcases hco : f.content with _ | c
      · simp
      · rcases hp : (post_tweet limits f.now st f.gateway).1 with _ | id <;>
          simp [hp]
    · have hqf : check_posting_quota st.quota_usage.posts
          (postsLimitStatus limits) = false := by
        revert hq
        cases check_posting_quota st.quota_usage.posts
          (postsLimitStatus limits) <;> simp
      simp [hqf]

theorem job_gateway_called (startT endT : Nat) (limits : QuotaLimits)
    (st : TwitterState) (f : Firing)
    (hin : is_in_posting_hours startT endT (f.now % minutesPerDay) = true)
    (hq : check_posting_quota st.quota_usage.posts (postsLimitStatus limits)
        = true)
    (hc : f.content.isSome = true) :
    (generate_and_post_job startT endT limits st f).2.2 = true := by
  unfold generate_and_post_job
  rcases hco : f.content with _ | c
  · rw [hco] at hc
    simp at hc
  · simp only [hin, hq, hco, Bool.not_true, Bool.false_eq_true, if_false]
    rcases hp : (post_tweet limits f.now st f.gateway).1 with _ | id <;>
      simp [hp, post_tweet_gateway_called limits f.now st f.gateway hq]

/-- Claim C6: posting window boundary.  The scheduler's window test agrees
with the specified `[start, end]` membership — boundaries inclusive, and
for a wrap-around window (start > end, e.g. 22:00–06:00) a time after the
start or before the end counts as inside; a firing whose time of day lies
outside the window is skipped as `skippedWindow` with the state untouched
and no platform call; a firing inside the window is never window-skipped,
and when the quota check allows it and content generation succeeds the
post is attempted against the platform gateway. -/
theorem c6_posting_window_boundary (startT endT : Nat) (limits : QuotaLimits)
    (st : TwitterState) (f : Firing) :
    is_in_posting_hours startT endT (f.now % minutesPerDay)
        = windowSpec startT endT (f.now % minutesPerDay)
    ∧ (windowSpec startT endT (f.now % minutesPerDay) = false →
        generate_and_post_job startT endT limits st f
          = (.skippedWindow, st, false))
    ∧ (windowSpec startT endT (f.now % minutesPerDay) = true →
        (generate_and_post_job startT endT limits st f).1
            ≠ JobOutcome.skippedWindow
        ∧ (check_posting_quota st.quota_usage.posts (postsLimitStatus limits)
              = true →
           f.content.isSome = true →
           (generate_and_post_job startT endT limits st f).2.2 = true)) := by
  have heq : is_in_posting_hours startT endT (f.now % minutesPerDay)
      = windowSpec startT endT (f.now % minutesPerDay) := by
    unfold is_in_posting_hours windowSpec
    by_cases h : startT ≤ endT
    · simp [h]
    · simp [h, ge_iff_le]
  refine ⟨heq, ?_, ?_⟩
  · intro hw
    unfold generate_and_post_job
    rw [heq, hw]
    simp
  · intro hw
    have hin : is_in_posting_hours startT endT (f.now % minutesPerDay)
        = true := heq.trans hw
    constructor
    · intro hout
      have := (job_skippedWindow_iff startT endT limits st f).mp hout
      rw [hin] at this
      exact absurd this (by simp)
    · intro hq hc
      exact job_gateway_called startT endT limits st f hin hq hc

/-- Witness for C6: with window 09:00–21:00 (minutes 540–1260), a firing at
08:59 (minute 539) is skipped without any call, and a firing at 09:00
(minute 540) with quota available and content generated reaches the
platform gateway. -/
theorem c6_witness :
    generate_and_post_job 540 1260 ⟨5, 9, 9⟩ ⟨⟨0, 0, 0⟩, 0⟩
        ⟨539, some "c", some "i"⟩
      = (.skippedWindow, ⟨⟨0, 0, 0⟩, 0⟩, false)
    ∧ (generate_and_post_job 540 1260 ⟨5, 9, 9⟩ ⟨⟨0, 0, 0⟩, 0⟩
        ⟨540, some "c", some "i"⟩).2.2 = true :=
  ⟨((c6_posting_window_boundary 540 1260 ⟨5, 9, 9⟩ ⟨⟨0, 0, 0⟩, 0⟩
      ⟨539, some "c", some "i"⟩).2.1 (by decide)),
   (((c6_posting_window_boundary 540 1260 ⟨5, 9, 9⟩ ⟨⟨0, 0, 0⟩, 0⟩
      ⟨540, some "c", some "i"⟩).2.2 (by decide)).2 (by decide) (by decide))⟩

/-- Claim C5 counterexample: when the author of a candidate reply cannot be
resolved, the like is NOT always skipped.  If `client.get_tweet` returns
successfully but with no `data` (e.g. for a deleted or protected tweet),
`like_tweet` falls through the author verification and issues the like:
here the like call is made and reports success even though the author was
never resolved. -/
theorem c5_like_unverified_author_counterexample :
    (like_tweet ⟨9, 9, 9⟩ (some "B") 10 ⟨⟨0, 0, 0⟩, 0⟩
      ⟨.ok none, some "B", true⟩).1 = true
    ∧ (like_tweet ⟨9, 9, 9⟩ (some "B") 10 ⟨⟨0, 0, 0⟩, 0⟩
      ⟨.ok none, some "B", true⟩).2.2 = true := by
  decide

/-- Claim C5 (amended): self-reply exclusion.  The discovery engine never
emits a reply authored by the bot's own account identifier; the like path
skips the like when the author lookup raises an error, and skips it when
the lookup resolves the author to the bot itself; but when the lookup
returns successfully with no author data the like proceeds unverified
(see the counterexample). -/
theorem c5_self_reply_exclusion_amended (limits : QuotaLimits) (b : String)
    (now : Nat) (st : TwitterState) (tweet_id : String) (maxr : Nat)
    (raw : List RawTweet) (orc : LikeOracle) :
    (∀ r ∈ (get_tweet_replies limits (some b) now st tweet_id maxr raw).1,
       r.author_id ≠ some b)
    ∧ (orc.lookup = .err →
        (like_tweet limits (some b) now st orc).1 = false
        ∧ (like_tweet limits (some b) now st orc).2.2 = false)
    ∧ (orc.lookup = .ok (some (some b)) →
        (like_tweet limits (some b) now st orc).1 = false
        ∧ (like_tweet limits (some b) now st orc).2.2 = false) := by
  refine ⟨?_, ?_, ?_⟩
  · intro r hr
    simp only [get_tweet_replies] at hr
    by_cases hchk : (check_quota limits QuotaOp.reads maxr now st).1 = true
    · rw [if_neg (by simp [hchk])] at hr
      simp only [List.mem_filterMap] at hr
      rcases hr with ⟨t, ht, hf⟩
      by_cases h1 : (t.conversation_id != tweet_id) = true
      · rw [if_pos h1] at hf
        exact absurd hf (by simp)
      · rw [if_neg h1] at hf
        by_cases h2 : isSelfAuthor (some b) t.author_id = true
        · rw [if_pos h2] at hf
          exact absurd hf (by simp)
        · rw [if_neg h2] at hf
          have hre : r = ⟨t.id, tweet_id, t.author_id, t.text, false⟩ := by
            injection hf with h
            exact h.symm
          subst hre
          intro hEq
          have hta : t.author_id = some b := hEq
          apply h2
          rw [hta]
          simp [isSelfAuthor]
    · rw [if_pos (by simp [Bool.not_eq_true'] at hchk ⊢; exact hchk)] at hr
      exact absurd hr (by simp)
  · intro hl
    unfold like_tweet
    rw [hl]
    by_cases hq : (check_quota limits QuotaOp.likes 1 now st).1 = true
    · simp [hq]
    · simp [hq]
  · intro hl
    unfold like_tweet
    rw [hl]
    by_cases hq : (check_quota limits QuotaOp.likes 1 now st).1 = true
    · simp [hq, isSelfAuthor]
    · simp [hq]

/-- Witness for C5 (amended): discovering the page for tweet t1 drops the
bot-authored reply x1 and keeps only x2 (authored by A); and a like whose
author lookup raises is skipped with no like call made. -/
theorem c5_witness :
    (∀ r ∈ (get_tweet_replies ⟨9, 9, 9⟩ (some "B") 5 ⟨⟨0, 0, 0⟩, 0⟩ "t1" 1
        [⟨"x1", "t1", some "B", "self"⟩, ⟨"x2", "t1", some "A", "hi"⟩]).1,
       r.author_id ≠ some "B")
    ∧ ((like_tweet ⟨9, 9, 9⟩ (some "B") 5 ⟨⟨0, 0, 0⟩, 0⟩
        ⟨.err, some "B", true⟩).1 = false
       ∧ (like_tweet ⟨9, 9, 9⟩ (some "B") 5 ⟨⟨0, 0, 0⟩, 0⟩
        ⟨.err, some "B", true⟩).2.2 = false) :=
  ⟨(c5_self_reply_exclusion_amended ⟨9, 9, 9⟩ "B" 5 ⟨⟨0, 0, 0⟩, 0⟩ "t1" 1
      [⟨"x1", "t1", some "B", "self"⟩, ⟨"x2", "t1", some "A", "hi"⟩]
      ⟨.err, some "B", true⟩).1,
   (c5_self_reply_exclusion_amended ⟨9, 9, 9⟩ "B" 5 ⟨⟨0, 0, 0⟩, 0⟩ "t1" 1
      [⟨"x1", "t1", some "B", "self"⟩, ⟨"x2", "t1", some "A", "hi"⟩]
      ⟨.err, some "B", true⟩).2.1 rfl⟩

theorem countPosted_cons (x : JobOutcome × Bool)
    (tr : List (JobOutcome × Bool)) :
    countPosted (x :: tr)
      = countPosted tr + (if isPosted x.1 = true then 1 else 0) := by
  unfold countPosted isPosted
  rw [List.countP_cons]

theorem resetIfNeeded_of_sameDay (now : Nat) (st : TwitterState)
    (h : now - st.last_quota_reset < minutesPerDay) :
    resetIfNeeded now st = st := by
  unfold resetIfNeeded minutesPerDay at *
  have hd : ¬((now - st.last_quota_reset) / 1440 ≥ 1) := by omega
  simp [hd]

theorem post_tweet_under_limit (limits : QuotaLimits) (L : Nat)
    (hlim : limits.posts_per_day = (L : Int)) (now : Nat)
    (st : TwitterState) (gw : Option String)
    (hres : resetIfNeeded now st = st)
    (hus : (st.quota_usage.posts : Int) < L) :
    (post_tweet limits now st gw).1 = gw
    ∧ (post_tweet limits now st gw).2.1
        = (if gw.isSome then update_quota .posts 1 st else st)
    ∧ (post_tweet limits now st gw).2.2 = true := by
  unfold post_tweet check_quota
  rw [hres]
  have hc : (!(limits.limitFor .posts > 0
      && ((st.quota_usage.usageFor .posts + 1 : Int)
            > limits.limitFor .posts))) = true := by
    simp [QuotaLimits.limitFor, QuotaUsage.usageFor, hlim]
    omega
  cases gw <;> simp [hc]

theorem job_step_quota (startT endT : Nat) (limits : QuotaLimits) (L : Nat)
    (hL : 0 < L) (hlim : limits.posts_per_day = (L : Int))
    (st : TwitterState) (f : Firing)
    (ht1 : st.last_quota_reset ≤ f.now)
    (ht2 : f.now < st.last_quota_reset + minutesPerDay) :
    (generate_and_post_job startT endT limits st f).2.1.last_quota_reset
        = st.last_quota_reset
    ∧ (generate_and_post_job startT endT limits st f).2.1.quota_usage.posts
        = st.quota_usage.posts
          + (if isPosted (generate_and_post_job startT endT limits st f).1
                = true then 1 else 0)
    ∧ (isPosted (generate_and_post_job startT endT limits st f).1 = true →
        st.quota_usage.posts < L) := by
  unfold generate_and_post_job
  cases hin : is_in_posting_hours startT endT (f.now % minutesPerDay) with
  | false => simp [hin, isPosted]
  | true =>
    simp only [hin, Bool.not_true, Bool.false_eq_true, if_false]
    by_cases hq : check_posting_quota st.quota_usage.posts
        (postsLimitStatus limits) = true
    · have hus : (st.quota_usage.posts : Int) < L := by
        unfold check_posting_quota postsLimitStatus at hq
        rw [hlim, if_pos (by exact_mod_cast hL)] at hq
        simpa using hq
      rcases hco : f.content with _ | c
      · simp [hq, hco, isPosted]
      · have hres : resetIfNeeded f.now st = st :=
          resetIfNeeded_of_sameDay f.now st (by omega)
        have hpt := post_tweet_under_limit limits L hlim f.now st f.gateway
          hres hus
        rcases hgw : f.gateway with _ | id
        · rw [hgw] at hpt
          simp only [hq, hco, if_true]
          rw [hpt.1]
          simp only [hpt.2.1, Option.isSome_none, Bool.false_eq_true,
            if_false]
          simp [isPosted]
        · rw [hgw] at hpt
          simp only [hq, hco, if_true]
          rw [hpt.1]
          simp only [hpt.2.1, Option.isSome_some, if_true]
          refine ⟨rfl, ?_, fun _ => by exact_mod_cast hus⟩
          simp [update_quota, QuotaUsage.bump, isPosted]
    · have hqf : check_posting_quota st.quota_usage.posts
          (postsLimitStatus limits) = false := by
        revert hq
        cases check_posting_quota st.quota_usage.posts
          (postsLimitStatus limits) <;> simp
      simp [hqf, isPosted]

theorem job_skip_at_cap (startT endT : Nat) (limits : QuotaLimits) (L : Nat)
    (hL : 0 < L) (hlim : limits.posts_per_day = (L : Int))
    (st : TwitterState) (f : Firing)
    (hge : st.quota_usage.posts ≥ L) :
    (generate_and_post_job startT endT limits st f).2.2 = false
    ∧ (is_in_posting_hours startT endT (f.now % minutesPerDay) = true →
       (generate_and_post_job startT endT limits st f).1
         = JobOutcome.skippedQuota) := by
  have hqf : check_posting_quota st.quota_usage.posts
      (postsLimitStatus limits) = false := by
    unfold check_posting_quota postsLimitStatus
    rw [hlim, if_pos (by exact_mod_cast hL)]
    simp
    exact_mod_cast hge
  unfold generate_and_post_job
  cases hin : is_in_posting_hours startT endT (f.now % minutesPerDay) with
  | false => simp [hin]
  | true => simp [hin, hqf]

theorem runFirings_quota_inv (startT endT : Nat) (limits : QuotaLimits)
    (L : Nat) (hL : 0 < L) (hlim : limits.posts_per_day = (L : Int)) :
    ∀ (fs : List Firing) (st : TwitterState),
      (∀ f ∈ fs, st.last_quota_reset ≤ f.now
          ∧ f.now < st.last_quota_reset + minutesPerDay) →
      (runFirings startT endT limits st fs).1.last_quota_reset
          = st.last_quota_reset
      ∧ (runFirings startT endT limits st fs).1.quota_usage.posts
          = st.quota_usage.posts
            + countPosted (runFirings startT endT limits st fs).2
      ∧ (st.quota_usage.posts ≤ L →
         (runFirings startT endT limits st fs).1.quota_usage.posts ≤ L)
  | [], st, _ => by
    refine ⟨rfl, ?_, fun h => h⟩
    simp [runFirings, countPosted]
  | f :: fs, st, htime => by
    have hstep := job_step_quota startT endT limits L hL hlim st f
      (htime f (List.mem_cons_self f fs)).1
      (htime f (List.mem_cons_self f fs)).2
    have htime2 : ∀ g ∈ fs,
        (generate_and_post_job startT endT limits st f).2.1.last_quota_reset
            ≤ g.now
        ∧ g.now < (generate_and_post_job startT endT limits st
            f).2.1.last_quota_reset + minutesPerDay := by
      intro g hg
      rw [hstep.1]
      exact htime g (List.mem_cons_of_mem f hg)
    have IH := runFirings_quota_inv startT endT limits L hL hlim fs
      (generate_and_post_job startT endT limits st f).2.1 htime2
    have hrun : runFirings startT endT limits st (f :: fs)
        = ((runFirings startT endT limits
              (generate_and_post_job startT endT limits st f).2.1 fs).1,
           ((generate_and_post_job startT endT limits st f).1,
            (generate_and_post_job startT endT limits st f).2.2)
             :: (runFirings startT endT limits
              (generate_and_post_job startT endT limits st f).2.1 fs).2) :=
      rfl
    rw [hrun]
    refine ⟨IH.1.trans hstep.1, ?_, ?_⟩
    · have hcp := countPosted_cons
        ((generate_and_post_job startT endT limits st f).1,
         (generate_and_post_job startT endT limits st f).2.2)
        (runFirings startT endT limits
          (generate_and_post_job startT endT limits st f).2.1 fs).2
      dsimp only at hcp
      rw [hcp, IH.2.1, hstep.2.1]
      omega
    · intro hle
      apply IH.2.2
      rw [hstep.2.1]
      by_cases hp : isPosted (generate_and_post_job startT endT limits st
          f).1 = true
      · have hlt := hstep.2.2 hp
        rw [if_pos hp]
        omega
      · rw [if_neg hp]
        omega

/-- Claim C3: quota enforcement.  For any sequence of firings of the
posting job within one rolling day (no 24-hour reset boundary crossed) with
a configured daily post limit L > 0 and fresh counters, at most L firings
succeed in posting; the usage counter always equals the number of
successful posts (only successful posts increment it); and whenever the
counter has reached L, a further firing makes no platform-gateway call —
inside the posting window it is skipped as `skippedQuota` by the quota
check, before content generation and before `post_tweet`. -/
theorem c3_quota_enforcement (startT endT : Nat) (limits : QuotaLimits)
    (L : Nat) (hL : 0 < L) (hlim : limits.posts_per_day = (L : Int))
    (st0 : TwitterState) (h0 : st0.quota_usage.posts = 0)
    (fs : List Firing)
    (htime : ∀ f ∈ fs, st0.last_quota_reset ≤ f.now
        ∧ f.now < st0.last_quota_reset + minutesPerDay) :
    countPosted (runFirings startT endT limits st0 fs).2 ≤ L
    ∧ (runFirings startT endT limits st0 fs).1.quota_usage.posts
        = countPosted (runFirings startT endT limits st0 fs).2
    ∧ ∀ st : TwitterState, st.quota_usage.posts ≥ L → ∀ f : Firing,
        (generate_and_post_job startT endT limits st f).2.2 = false
        ∧ (is_in_posting_hours startT endT (f.now % minutesPerDay) = true →
           (generate_and_post_job startT endT limits st f).1
             = JobOutcome.skippedQuota) := by
  have hinv := runFirings_quota_inv startT endT limits L hL hlim fs st0 htime
  refine ⟨?_, ?_, ?_⟩
  · have h1 := hinv.2.1
    have h2 := hinv.2.2 (by omega)
    omega
  · have h1 := hinv.2.1
    omega
  · intro st hge f
    exact job_skip_at_cap startT endT limits L hL hlim st f hge

/-- Witness for C3: limit 2, four in-window firings with content and
gateway available — exactly 2 posts succeed, the counter ends at 2, and
the trace shows the third and fourth firings skipped by the quota check
with no gateway call. -/
theorem c3_witness :
    countPosted (runFirings 0 1439 c3limits c3st0 c3fs).2 ≤ 2
    ∧ (runFirings 0 1439 c3limits c3st0 c3fs).1.quota_usage.posts
        = countPosted (runFirings 0 1439 c3limits c3st0 c3fs).2 :=
  ⟨(c3_quota_enforcement 0 1439 c3limits 2 (by decide) rfl c3st0 rfl c3fs
      (by decide)).1,
   (c3_quota_enforcement 0 1439 c3limits 2 (by decide) rfl c3st0 rfl c3fs
      (by decide)).2.1⟩
